import Mathlib

/-!
Verification of the `pyflatpak` remote-configuration resolver
(`pyflatpak/remote.py`), shallowly embedded in Lean.

A configuration store (one flatpak `repo/config` file, already parsed as an
INI document) is a list of sections; each section is a header string together
with a flat list of key/value pairs.  `Remote.__init__` first runs
`_get_option` — scan the user store for a section whose header contains the
requested name as a substring, then fall back to the system store — and then
`_get_config`, which re-reads the winning file and indexes the section named
exactly `remote "<name>"`.  The accessors are properties reading the snapshot.

Python exceptions are modelled with `Except`: `RemoteError(msg)` from the
source, `KeyError(key)` for missing mapping keys, and an I/O failure for a
store whose backing file cannot be opened (the system store is therefore an
`Option Store`, `none` standing for a file that would error when opened).
-/

set_option autoImplicit false

namespace Pyflatpak

/-- Which configuration store a remote was found in (`self._option`). -/
inductive Scope where
  | user
  | system
deriving DecidableEq, Repr

/-- Python exceptions that the source can raise while resolving or reading
a remote: `RemoteError` (with its message), `KeyError` (with the missing
key), and an I/O error from opening a configuration file. -/
inductive PyError where
  | remoteError (msg : String)
  | keyError (key : String)
  | ioError
deriving DecidableEq, Repr

/-- One parsed section body: flat key/value pairs, as `configparser` yields. -/
abbrev Config := List (String × String)

/-- One parsed configuration file: section headers with their bodies. -/
abbrev Store := List (String × Config)

/-- Python's `sub in hay` substring containment test on strings:
`sub` occurs as a contiguous run of characters inside `hay`. -/
def strContains (hay sub : String) : Bool :=
  decide (sub.data <:+: hay.data)

/-- `section[key]` lookup returning `none` when the key is absent
(the source's `KeyError` path). -/
def lookupKey (cfg : Config) (key : String) : Option String :=
  (cfg.find? (fun p => p.1 == key)).map (fun p => p.2)

/-- The exact header `_get_config` indexes: `remote "<name>"`. -/
def sectionName (name : String) : String :=
  "remote \"" ++ name ++ "\""

/-- The first section of a store whose header contains `name` as a
substring — the loop `for section in config.sections(): if self.name in
section` of `_get_option`. -/
def findMatch (name : String) (store : Store) : Option (String × Config) :=
  store.find? (fun sec => strContains sec.1 name)

/-- Whether some section header of the store contains `name` as a
substring. -/
def matchesStore (name : String) (store : Store) : Bool :=
  (findMatch name store).isSome

/-- The in-memory `Remote` object: name, scope (`self._option`), the
snapshot section `self.config`, and the shadow fields that the setters
write (`self._title`, `self._url`, …), all initially unset. -/
structure Remote where
  name : String
  option : Scope
  config : Config
  shadowTitle : Option String := none
  shadowUrl : Option String := none
  shadowComment : Option String := none
  shadowDescription : Option String := none
  shadowIcon : Option String := none
  shadowHomepage : Option String := none
  shadowEnabled : Option Bool := none
deriving DecidableEq, Repr

/-- `Remote._get_option`: scan the user store first; on a substring match
record scope `user` and the user store as the winning file.  Otherwise open
the system store (an unopenable store raises an I/O error), scan it, and on
a match record scope `system`.  If neither store matches, raise
`RemoteError(f"Remote '{name}' doesn't exist")`. -/
def get_option (name : String) (userStore : Store) (sysStore : Option Store) :
    Except PyError (Scope × Store) :=
  match findMatch name userStore with
  | some _ => Except.ok (Scope.user, userStore)
  | none =>
    match sysStore with
    | none => Except.error PyError.ioError
    | some sys =>
      match findMatch name sys with
      | some _ => Except.ok (Scope.system, sys)
      | none =>
        Except.error
          (PyError.remoteError ("Remote '" ++ name ++ "' doesn't exist"))

/-- `Remote._get_config`: re-read the winning file and take the section
named exactly `remote "<name>"`; a missing section is a `KeyError` on that
header. -/
def get_config (name : String) (store : Store) : Except PyError Config :=
  match store.find? (fun sec => sec.1 == sectionName name) with
  | some sec => Except.ok sec.2
  | none => Except.error (PyError.keyError (sectionName name))

/-- `Remote.__init__(name)`: `_get_option` then `_get_config`, producing the
snapshot object. -/
def resolve (name : String) (userStore : Store) (sysStore : Option Store) :
    Except PyError Remote :=
  match get_option name userStore sysStore with
  | Except.error e => Except.error e
  | Except.ok (scope, winning) =>
    match get_config name winning with
    | Except.error e => Except.error e
    | Except.ok cfg => Except.ok { name := name, option := scope, config := cfg }

/-- Property `title`: `self.config['xa.title']`, with the `KeyError` caught
and the remote's name returned instead. -/
def Remote.title (r : Remote) : String :=
  match lookupKey r.config "xa.title" with
  | some t => t
  | none => r.name

/-- Property `url`: `self.config['url']`; a missing key raises `KeyError`
(nothing catches it). -/
def Remote.url (r : Remote) : Except PyError String :=
  match lookupKey r.config "url" with
  | some u => Except.ok u
  | none => Except.error (PyError.keyError "url")

/-- Property `comment`: `self.config['xa.comment']`, `KeyError` caught and
`None` returned. -/
def Remote.comment (r : Remote) : Option String :=
  lookupKey r.config "xa.comment"

/-- Property `description`: `self.config['xa.description']`, `KeyError`
caught and `None` returned. -/
def Remote.description (r : Remote) : Option String :=
  lookupKey r.config "xa.description"

/-- Property `icon`: `self.config['xa.icon']`, `KeyError` caught and `None`
returned. -/
def Remote.icon (r : Remote) : Option String :=
  lookupKey r.config "xa.icon"

/-- Property `homepage`: `self.config['xa.homepage']` inside a
`try/except AttributeError` — the `KeyError` from a missing key is NOT
caught and propagates to the caller. -/
def Remote.homepage (r : Remote) : Except PyError (Option String) :=
  match lookupKey r.config "xa.homepage" with
  | some h => Except.ok (some h)
  | none => Except.error (PyError.keyError "xa.homepage")

/-- Python truthiness of an optional string: `None` and `''` are falsy. -/
def pyTruthy : Option String → Bool
  | none => false
  | some s => !(s == "")

/-- Python's `str.lower()` on the ASCII values the source compares
against (character-wise lowercasing). -/
def pyLower (s : String) : String :=
  String.mk (s.data.map Char.toLower)

/-- Property `about`: `self.comment` if truthy, else `self.description` if
truthy, else `self.name`. -/
def Remote.about (r : Remote) : String :=
  if pyTruthy r.comment then (r.comment).getD ""
  else if pyTruthy r.description then (r.description).getD ""
  else r.name

/-- Property `enabled`: `self.config['xa.disable'].lower() in ['false',
'no', '0']`, defaulting to `True` when the key is absent. -/
def Remote.enabled (r : Remote) : Bool :=
  match lookupKey r.config "xa.disable" with
  | some v => ["false", "no", "0"].contains (pyLower v)
  | none => true

/-- `name` setter: raises `RemoteError('Cannot set name: property is
read-only')` before touching any attribute, so an `ok` state is never
produced. -/
def Remote.set_name (r : Remote) (v : String) : Except PyError Remote :=
  Except.error (PyError.remoteError "Cannot set name: property is read-only")

/-- `option` setter: raises `RemoteError('Cannot set option: property is
read-only')` before touching any attribute. -/
def Remote.set_option (r : Remote) (v : Scope) : Except PyError Remote :=
  Except.error (PyError.remoteError "Cannot set option: property is read-only")

/-- `title` setter: writes only the shadow field `self._title`. -/
def Remote.set_title (r : Remote) (v : String) : Remote :=
  { r with shadowTitle := some v }

/-- `url` setter: writes only the shadow field `self._url`. -/
def Remote.set_url (r : Remote) (v : String) : Remote :=
  { r with shadowUrl := some v }

/-- `comment` setter: writes only the shadow field `self._comment`. -/
def Remote.set_comment (r : Remote) (v : String) : Remote :=
  { r with shadowComment := some v }

/-- `description` setter: writes only the shadow field
`self._description`. -/
def Remote.set_description (r : Remote) (v : String) : Remote :=
  { r with shadowDescription := some v }

/-- `icon` setter: writes only the shadow field `self._icon`. -/
def Remote.set_icon (r : Remote) (v : String) : Remote :=
  { r with shadowIcon := some v }

/-- `homepage` setter: writes only the shadow field `self._homepage`. -/
def Remote.set_homepage (r : Remote) (v : String) : Remote :=
  { r with shadowHomepage := some v }

/-- `enabled` setter: a string argument is lowercased and tested against
the truthy set (the recursive `self.enabled = …` call then lands in the
boolean branch); a boolean argument is stored directly.  Either way only
the shadow field `self._enabled` is written. -/
def Remote.set_enabled (r : Remote) (v : String ⊕ Bool) : Remote :=
  match v with
  | Sum.inl s => { r with shadowEnabled := some (["true", "yes", "1"].contains (pyLower s)) }
  | Sum.inr b => { r with shadowEnabled := some b }

/-! ### Helper lemmas -/

/-- A string is always contained in any padding of itself. -/
theorem strContains_append (pre suf name : String) :
    strContains (pre ++ name ++ suf) name = true := by
  unfold strContains
  rw [decide_eq_true_eq, String.data_append, String.data_append]
  exact ⟨pre.data, suf.data, rfl⟩

/-- The requested name is always a substring of its exact header. -/
theorem strContains_sectionName (name : String) :
    strContains (sectionName name) name = true :=
  strContains_append "remote \"" "\"" name

/-- A store that does not match yields no matching section. -/
theorem matchesStore_false (name : String) (u : Store)
    (h : matchesStore name u = false) : findMatch name u = none := by
  unfold matchesStore at h
  cases hf : findMatch name u with
  | none => rfl
  | some sec => rw [hf] at h; simp at h

/-- A store that matches yields some matching section. -/
theorem matchesStore_true (name : String) (u : Store)
    (h : matchesStore name u = true) : ∃ sec, findMatch name u = some sec := by
  unfold matchesStore at h
  cases hf : findMatch name u with
  | none => rw [hf] at h; simp at h
  | some sec => exact ⟨sec, rfl⟩

/-- When the user store matches, resolution reads only the user store. -/
theorem resolve_user (name : String) (u : Store) (sOpt : Option Store)
    (h : matchesStore name u = true) :
    resolve name u sOpt =
      (get_config name u).map
        (fun cfg => { name := name, option := Scope.user, config := cfg }) := by
  obtain ⟨sec, hf⟩ := matchesStore_true name u h
  unfold resolve get_option
  simp only [hf]
  cases get_config name u <;> rfl

/-- When only the system store matches, resolution lands on it. -/
theorem resolve_system (name : String) (u s : Store)
    (hu : matchesStore name u = false) (hs : matchesStore name s = true) :
    resolve name u (some s) =
      (get_config name s).map
        (fun cfg => { name := name, option := Scope.system, config := cfg }) := by
  have hu' := matchesStore_false name u hu
  obtain ⟨sec, hf⟩ := matchesStore_true name s hs
  unfold resolve get_option
  simp only [hu', hf]
  cases get_config name s <;> rfl

/-- When neither store matches, the `RemoteError` is raised. -/
theorem resolve_none (name : String) (u s : Store)
    (hu : matchesStore name u = false) (hs : matchesStore name s = false) :
    resolve name u (some s) =
      Except.error (PyError.remoteError ("Remote \'" ++ name ++ "\' doesn\'t exist")) := by
  unfold resolve get_option
  simp only [matchesStore_false name u hu, matchesStore_false name s hs]

/-! ### Concrete example data -/

/-- A user-scope store holding the `flathub` remote. -/
def userEx : Store := [(sectionName "flathub", [("url", "https://dl.flathub.org/repo/")])]

/-- A system-scope store holding the `gnome` remote. -/
def sysEx : Store := [(sectionName "gnome", [("url", "https://sdk.gnome.org/repo/")])]

/-- The remote that resolving `flathub` against `userEx` produces. -/
def flathubRemote : Remote :=
  { name := "flathub", option := Scope.user,
    config := [("url", "https://dl.flathub.org/repo/")] }

/-- The remote that resolving `gnome` against `userEx`/`sysEx` produces. -/
def gnomeRemote : Remote :=
  { name := "gnome", option := Scope.system,
    config := [("url", "https://sdk.gnome.org/repo/")] }

/-! ### Claims -/

/-- An exactly-named section of a store is also a substring match for its
name, so the store as a whole matches. -/
theorem matchesStore_of_find?_exact (name : String) (u : Store)
    (sec : String × Config)
    (h : u.find? (fun sec => sec.1 == sectionName name) = some sec) :
    matchesStore name u = true := by
  have hmem := List.mem_of_find?_eq_some h
  have hp : sec.1 = sectionName name := by simpa using List.find?_some h
  unfold matchesStore findMatch
  rw [Option.isSome_iff_exists]
  have : ∃ x ∈ u, strContains x.1 name = true :=
    ⟨sec, hmem, by rw [hp]; exact strContains_sectionName name⟩
  obtain ⟨x, hx, hpx⟩ := this
  obtain ⟨y, hy⟩ := (List.find?_isSome (p := fun sec => strContains sec.1 name)).mpr
    ⟨x, hx, hpx⟩ |> Option.isSome_iff_exists.mp
  exact ⟨y, hy⟩

/-- C1 counterexample: the name `hub` matches the user-scope section
header `remote "flathub"` by substring containment, yet resolution does
not yield a Remote at all — it fails with a `KeyError` on the absent
exact header `remote "hub"` — so a user-scope match does not guarantee
that `resolve` yields a Remote with scope `user`. -/
theorem c1_counterexample :
    matchesStore "hub" userEx = true ∧
    resolve "hub" userEx (some []) =
      Except.error (PyError.keyError (sectionName "hub")) :=
  ⟨by decide, rfl⟩

/-- C1 (amended): a name matching a user-scope section never causes the
system store to be read (the result is the same whatever the system store
is, even one that would error when opened) and any Remote yielded has
scope `user` — and one IS yielded whenever the user store has a section
named exactly `remote "<name>"`; a name matching no user-scope section but
matching a system-scope section yields, when it yields at all, a Remote
with scope `system` — and one is yielded whenever the system store has the
exactly-named section. -/
theorem c1_scope_precedence (name : String) (u s : Store) :
    (matchesStore name u = true →
      resolve name u (some s) = resolve name u none ∧
      ∀ r : Remote, resolve name u (some s) = Except.ok r → r.option = Scope.user) ∧
    (matchesStore name u = false → matchesStore name s = true →
      ∀ r : Remote, resolve name u (some s) = Except.ok r → r.option = Scope.system) ∧
    (∀ cfg : Config,
      u.find? (fun sec => sec.1 == sectionName name) = some (sectionName name, cfg) →
      resolve name u (some s) =
        Except.ok { name := name, option := Scope.user, config := cfg } ∧
      resolve name u (some s) = resolve name u none) ∧
    (matchesStore name u = false →
      ∀ cfg : Config,
        s.find? (fun sec => sec.1 == sectionName name) = some (sectionName name, cfg) →
        resolve name u (some s) =
          Except.ok { name := name, option := Scope.system, config := cfg }) := by
  refine ⟨?_, ?_, ?_, ?_⟩
  · intro h
    refine ⟨(resolve_user name u (some s) h).trans (resolve_user name u none h).symm, ?_⟩
    intro r hr
    rw [resolve_user name u (some s) h] at hr
    cases hg : get_config name u with
    | error e => rw [hg] at hr; simp [Except.map] at hr
    | ok cfg =>
      rw [hg] at hr
      simp only [Except.map, Except.ok.injEq] at hr
      rw [← hr]
  · intro hu hs r hr
    rw [resolve_system name u s hu hs] at hr
    cases hg : get_config name s with
    | error e => rw [hg] at hr; simp [Except.map] at hr
    | ok cfg =>
      rw [hg] at hr
      simp only [Except.map, Except.ok.injEq] at hr
      rw [← hr]
  · intro cfg hf
    have hm := matchesStore_of_find?_exact name u (sectionName name, cfg) hf
    have hc : get_config name u = Except.ok cfg := by
      unfold get_config
      rw [hf]
    constructor
    · rw [resolve_user name u (some s) hm, hc]
      rfl
    · exact (resolve_user name u (some s) hm).trans (resolve_user name u none hm).symm
  · intro hu cfg hf
    have hm := matchesStore_of_find?_exact name s (sectionName name, cfg) hf
    have hc : get_config name s = Except.ok cfg := by
      unfold get_config
      rw [hf]
    rw [resolve_system name u s hu hm, hc]
    rfl

/-- C1 witness: `flathub` is found in the user store without consulting
the system store and yields the user-scope Remote; `gnome` falls through
to the system store and yields the system-scope Remote. -/
theorem c1_scope_precedence_witness :
    (resolve "flathub" userEx (some sysEx) = resolve "flathub" userEx none) ∧
    flathubRemote.option = Scope.user ∧
    gnomeRemote.option = Scope.system ∧
    resolve "flathub" userEx (some sysEx) = Except.ok flathubRemote ∧
    resolve "gnome" userEx (some sysEx) = Except.ok gnomeRemote :=
  ⟨((c1_scope_precedence "flathub" userEx sysEx).1 (by decide)).1,
   ((c1_scope_precedence "flathub" userEx sysEx).1 (by decide)).2 flathubRemote rfl,
   (c1_scope_precedence "gnome" userEx sysEx).2.1 (by decide) (by decide) gnomeRemote rfl,
   ((c1_scope_precedence "flathub" userEx sysEx).2.2.1
      [("url", "https://dl.flathub.org/repo/")] rfl).1,
   (c1_scope_precedence "gnome" userEx sysEx).2.2.2 (by decide)
      [("url", "https://sdk.gnome.org/repo/")] rfl⟩

/-- C3: `enabled` is `true` when `xa.disable` is absent, and otherwise is
exactly the test "the lowercased value is one of `false`, `no`, `0`" —
so any other value, including true-like ones such as `true`, yields
`false`. -/
theorem c3_enabled (r : Remote) :
    (lookupKey r.config "xa.disable" = none → r.enabled = true) ∧
    (∀ v, lookupKey r.config "xa.disable" = some v →
      r.enabled = ["false", "no", "0"].contains (pyLower v)) := by
  unfold Remote.enabled
  constructor
  · intro h; rw [h]
  · intro v h; rw [h]

/-- A remote with `xa.disable=true` (disabled on disk). -/
def disabledRemote : Remote :=
  { name := "flathub", option := Scope.user,
    config := [("url", "u"), ("xa.disable", "true")] }

/-- A remote with `xa.disable=false` (explicitly not disabled). -/
def notDisabledRemote : Remote :=
  { name := "flathub", option := Scope.user,
    config := [("url", "u"), ("xa.disable", "false")] }

/-- A remote without any `xa.disable` key. -/
def defaultEnabledRemote : Remote :=
  { name := "flathub", option := Scope.user, config := [("url", "u")] }

/-- C3 witness: absent key → enabled; `false` → enabled; `true` →
disabled. -/
theorem c3_enabled_witness :
    defaultEnabledRemote.enabled = true ∧
    notDisabledRemote.enabled = ["false", "no", "0"].contains (pyLower "false") ∧
    (["false", "no", "0"].contains (pyLower "false") = true) ∧
    disabledRemote.enabled = ["false", "no", "0"].contains (pyLower "true") ∧
    (["false", "no", "0"].contains (pyLower "true") = false) :=
  ⟨(c3_enabled defaultEnabledRemote).1 rfl,
   (c3_enabled notDisabledRemote).2 "false" rfl, by decide,
   (c3_enabled disabledRemote).2 "true" rfl, by decide⟩

/-- C8: the `name` and `option` setters raise `RemoteError` and never
produce an updated object, so every attribute is left unchanged. -/
theorem c8_readonly_setters (r : Remote) (v : String) (w : Scope) :
    r.set_name v =
      Except.error (PyError.remoteError "Cannot set name: property is read-only") ∧
    r.set_option w =
      Except.error (PyError.remoteError "Cannot set option: property is read-only") :=
  ⟨rfl, rfl⟩

/-- C10: each derived-attribute setter writes only its shadow field, and
the corresponding getter keeps re-deriving from the config snapshot, so
the value read back is unchanged by the write. -/
theorem c10_setters_do_not_affect_getters (r : Remote) (v : String) (b : String ⊕ Bool) :
    (r.set_title v).title = r.title ∧
    (r.set_url v).url = r.url ∧
    (r.set_comment v).comment = r.comment ∧
    (r.set_description v).description = r.description ∧
    (r.set_icon v).icon = r.icon ∧
    (r.set_homepage v).homepage = r.homepage ∧
    (r.set_enabled b).enabled = r.enabled := by
  refine ⟨rfl, rfl, rfl, rfl, rfl, rfl, ?_⟩
  cases b <;> rfl

/-- A store whose only section is `remote "flathub"` without a `url`
key. -/
def noUrlStore : Store := [(sectionName "flathub", [("xa.title", "Flathub")])]

/-- The remote resolved from `noUrlStore`: it exists despite the missing
`url` key. -/
def noUrlRemote : Remote :=
  { name := "flathub", option := Scope.user, config := [("xa.title", "Flathub")] }

/-- C2 counterexample: construction does not check the `url` key, so
resolution over a store whose matched section has no `url` key succeeds and
returns a `Remote` — it does not fail with a malformed-configuration
error. -/
theorem c2_counterexample :
    resolve "flathub" noUrlStore (some []) = Except.ok noUrlRemote := rfl

/-- C2 (amended): resolution succeeds even when the matched section lacks
the mandatory `url` key; the absent URL surfaces only when the `url`
accessor is read, as an uncaught `KeyError('url')` rather than as an absent
value. -/
theorem c2_url_missing (name : String) (cfg : Config) (sOpt : Option Store) :
    resolve name [(sectionName name, cfg)] sOpt =
      Except.ok { name := name, option := Scope.user, config := cfg } ∧
    (lookupKey cfg "url" = none →
      Remote.url { name := name, option := Scope.user, config := cfg } =
        Except.error (PyError.keyError "url")) := by
  constructor
  · have hm : matchesStore name [(sectionName name, cfg)] = true := by
      unfold matchesStore findMatch
      simp [List.find?, strContains_sectionName name]
    rw [resolve_user name [(sectionName name, cfg)] sOpt hm]
    have hc : get_config name [(sectionName name, cfg)] = Except.ok cfg := by
      unfold get_config
      simp [List.find?]
    rw [hc]
    rfl
  · intro h
    unfold Remote.url
    simp only []
    rw [show lookupKey (Remote.config { name := name, option := Scope.user, config := cfg })
          "url" = none from h]

/-- C2 witness: a concrete section without `url` resolves fine and its
`url` accessor raises `KeyError`. -/
theorem c2_url_missing_witness :
    resolve "flathub" [(sectionName "flathub", [("xa.title", "Flathub")])] none =
      Except.ok { name := "flathub", option := Scope.user,
                  config := [("xa.title", "Flathub")] } ∧
    Remote.url { name := "flathub", option := Scope.user,
                 config := [("xa.title", "Flathub")] } =
      Except.error (PyError.keyError "url") :=
  ⟨(c2_url_missing "flathub" [("xa.title", "Flathub")] none).1,
   (c2_url_missing "flathub" [("xa.title", "Flathub")] none).2 rfl⟩

/-- C4: `about` prefers a present non-empty `comment`, then a present
non-empty `description`, then the remote name, skipping absent or empty
values. -/
theorem c4_about (r : Remote) :
    (∀ c, r.comment = some c → ¬c = "" → r.about = c) ∧
    ((r.comment = none ∨ r.comment = some "") →
      ∀ d, r.description = some d → ¬d = "" → r.about = d) ∧
    ((r.comment = none ∨ r.comment = some "") →
      (r.description = none ∨ r.description = some "") → r.about = r.name) := by
  refine ⟨?_, ?_, ?_⟩
  · intro c hc hne
    unfold Remote.about
    rw [hc]
    simp [pyTruthy, hne]
  · intro hc d hd hne
    unfold Remote.about
    rcases hc with h | h <;> rw [h, hd] <;> simp [pyTruthy, hne]
  · intro hc hd
    unfold Remote.about
    rcases hc with h | h <;> rcases hd with h2 | h2 <;> rw [h, h2] <;> simp [pyTruthy]

/-- A remote with both a comment and a description. -/
def commentedRemote : Remote :=
  { name := "flathub", option := Scope.user,
    config := [("xa.comment", "Fast mirror"), ("xa.description", "Full catalog")] }

/-- A remote with only a description. -/
def describedRemote : Remote :=
  { name := "flathub", option := Scope.user,
    config := [("xa.description", "Full catalog")] }

/-- A remote with neither comment nor description. -/
def bareRemote : Remote :=
  { name := "flathub", option := Scope.user, config := [("url", "u")] }

/-- C4 witness: comment wins, then description, then the name. -/
theorem c4_about_witness :
    commentedRemote.about = "Fast mirror" ∧
    describedRemote.about = "Full catalog" ∧
    bareRemote.about = bareRemote.name :=
  ⟨(c4_about commentedRemote).1 "Fast mirror" rfl (by decide),
   (c4_about describedRemote).2.1 (Or.inl rfl) "Full catalog" rfl (by decide),
   (c4_about bareRemote).2.2 (Or.inl rfl) (Or.inl rfl)⟩

/-- C5: when neither store has a matching section, resolution fails with
the `RemoteError` whose message carries the exact requested name. -/
theorem c5_not_found (name : String) (u s : Store)
    (hu : matchesStore name u = false) (hs : matchesStore name s = false) :
    resolve name u (some s) =
      Except.error (PyError.remoteError ("Remote \'" ++ name ++ "\' doesn\'t exist")) ∧
    strContains ("Remote \'" ++ name ++ "\' doesn\'t exist") name = true :=
  ⟨resolve_none name u s hu hs,
   strContains_append "Remote \'" "\' doesn\'t exist" name⟩

/-- C5 witness: a name absent from both concrete stores fails with the
not-found error naming it. -/
theorem c5_not_found_witness :
    resolve "nonexistent" userEx (some sysEx) =
      Except.error
        (PyError.remoteError ("Remote \'" ++ "nonexistent" ++ "\' doesn\'t exist")) ∧
    strContains ("Remote \'" ++ "nonexistent" ++ "\' doesn\'t exist") "nonexistent" = true :=
  c5_not_found "nonexistent" userEx sysEx (by decide) (by decide)

/-- A store whose only section header is `remote "foobar"`. -/
def foobarStore : Store := [(sectionName "foobar", [("url", "https://example.com/repo/")])]

/-- C6 counterexample: the name `foo` matches the section header
`remote "foobar"` by substring containment, yet no fields are extracted
from that matching section — resolution instead indexes the absent exact
header `remote "foo"` and fails with a `KeyError`, so no `Remote` results
from the match. -/
theorem c6_counterexample :
    matchesStore "foo" foobarStore = true ∧
    resolve "foo" foobarStore (some []) =
      Except.error (PyError.keyError (sectionName "foo")) :=
  ⟨by decide, rfl⟩

/-- C6 (amended): matching is substring containment against section
headers, but the snapshot fields are extracted from the section of the
winning file named exactly `remote "<name>"`; when the winning file has no
such section, resolution fails with a `KeyError` on that header even
though a substring match succeeded. -/
theorem c6_substring_match_exact_extraction (name : String) (u s : Store) :
    (∀ r : Remote, resolve name u (some s) = Except.ok r →
      matchesStore name u = true →
      r.option = Scope.user ∧
      (u.find? (fun sec => sec.1 == sectionName name)).map (fun sec => sec.2) =
        some r.config) ∧
    (∀ r : Remote, resolve name u (some s) = Except.ok r →
      matchesStore name u = false →
      matchesStore name s = true ∧ r.option = Scope.system ∧
      (s.find? (fun sec => sec.1 == sectionName name)).map (fun sec => sec.2) =
        some r.config) ∧
    (matchesStore name u = true →
      u.find? (fun sec => sec.1 == sectionName name) = none →
      resolve name u (some s) = Except.error (PyError.keyError (sectionName name))) := by
  refine ⟨?_, ?_, ?_⟩
  · intro r hr hm
    rw [resolve_user name u (some s) hm] at hr
    unfold get_config at hr
    cases hf : u.find? (fun sec => sec.1 == sectionName name) with
    | none => rw [hf] at hr; simp [Except.map] at hr
    | some sec =>
      rw [hf] at hr
      simp only [Except.map, Except.ok.injEq] at hr
      rw [← hr]
      exact ⟨rfl, rfl⟩
  · intro r hr hm
    cases hs : matchesStore name s with
    | false =>
      rw [resolve_none name u s hm hs] at hr
      simp at hr
    | true =>
      rw [resolve_system name u s hm hs] at hr
      unfold get_config at hr
      cases hf : s.find? (fun sec => sec.1 == sectionName name) with
      | none => rw [hf] at hr; simp [Except.map] at hr
      | some sec =>
        rw [hf] at hr
        simp only [Except.map, Except.ok.injEq] at hr
        rw [← hr]
        exact ⟨rfl, rfl, rfl⟩
  · intro hm hf
    rw [resolve_user name u (some s) hm]
    unfold get_config
    rw [hf]
    rfl

/-- C6 amended witness: a genuine exact section is extracted from the
winning file; the substring-only match fails with the `KeyError`. -/
theorem c6_substring_match_exact_extraction_witness :
    (flathubRemote.option = Scope.user ∧
      (userEx.find? (fun sec => sec.1 == sectionName "flathub")).map (fun sec => sec.2) =
        some flathubRemote.config) ∧
    resolve "foo" foobarStore (some []) =
      Except.error (PyError.keyError (sectionName "foo")) :=
  ⟨(c6_substring_match_exact_extraction "flathub" userEx sysEx).1 flathubRemote rfl
      (by decide),
   (c6_substring_match_exact_extraction "foo" foobarStore []).2.2 (by decide) (by decide)⟩

/-- The store backing the C7 bug report: a section with only a `url`. -/
def minimalStore : Store := [(sectionName "example", [("url", "https://example.com/repo/")])]

/-- The remote resolved from `minimalStore`. -/
def minimalRemote : Remote :=
  { name := "example", option := Scope.user,
    config := [("url", "https://example.com/repo/")] }

/-- C7: on a resolved remote whose section lacks the optional keys,
`comment`, `description` and `icon` return an absent value as specified,
but `homepage` raises `KeyError('xa.homepage')` — its handler catches
`AttributeError` instead of `KeyError`, contradicting the accessor's own
logging path (`'No homepage found'`), which is unreachable. -/
theorem c7_optional_fields_absent :
    resolve "example" minimalStore none = Except.ok minimalRemote ∧
    minimalRemote.comment = none ∧
    minimalRemote.description = none ∧
    minimalRemote.icon = none ∧
    minimalRemote.homepage = Except.error (PyError.keyError "xa.homepage") :=
  ⟨rfl, rfl, rfl, rfl, rfl⟩

/-- A remote whose `xa.title` key is present but empty. -/
def emptyTitleRemote : Remote :=
  { name := "flathub", option := Scope.user,
    config := [("url", "u"), ("xa.title", "")] }

/-- C9 counterexample: with `xa.title` present but empty, `title` returns
the empty string, not the remote name. -/
theorem c9_counterexample :
    lookupKey emptyTitleRemote.config "xa.title" = some "" ∧
    emptyTitleRemote.title = "" ∧
    ¬emptyTitleRemote.title = emptyTitleRemote.name :=
  ⟨rfl, rfl, by decide⟩

/-- C9 (amended): `title` returns the `xa.title` value whenever the key is
present — even when that value is empty — and falls back to the remote
name only when the key is absent. -/
theorem c9_title (r : Remote) :
    (∀ v, lookupKey r.config "xa.title" = some v → r.title = v) ∧
    (lookupKey r.config "xa.title" = none → r.title = r.name) := by
  unfold Remote.title
  exact ⟨fun v h => by rw [h], fun h => by rw [h]⟩

/-- A remote with a fancy title. -/
def titledRemote : Remote :=
  { name := "flathub", option := Scope.user,
    config := [("url", "u"), ("xa.title", "My Repo")] }

/-- C9 witness: present key wins (including the empty value), absent key
falls back to the name. -/
theorem c9_title_witness :
    titledRemote.title = "My Repo" ∧
    emptyTitleRemote.title = "" ∧
    bareRemote.title = bareRemote.name :=
  ⟨(c9_title titledRemote).1 "My Repo" rfl,
   (c9_title emptyTitleRemote).1 "" rfl,
   (c9_title bareRemote).2 rfl⟩

end Pyflatpak
